import Mathlib

/-!
Verification of the VKE autoscaler SDK client
(`cluster-autoscaler/cloudprovider/vke/sdk`): clock synchronization,
request signing, HTTP dispatch with typed error decoding, the one-shot
regional-failover retry, and the node-pool resource surface.

The Go code is embedded shallowly:

* Machine integers (`int64` timestamps, status codes) become `Int`/`Nat`.
* The HTTP network is a `World`: a list of prescribed dispatch outcomes,
  consumed left to right by successive `http.Client.Do` executions.  A
  dispatch against an exhausted world is modelled as a transport error
  (the traces we reason about always supply enough outcomes).
* Goroutine-visible mutable state (`Client.timeDelta`,
  `Client.timeDeltaDone`) is threaded explicitly through every call.
* `sync.Mutex` is non-reentrant in Go, so a goroutine that locks
  `timeDeltaMutex` twice blocks forever.  This is the `Outcome.hang`
  result: the call neither returns a value nor an error.  Functions that
  the source runs while the current goroutine already holds the mutex are
  modelled by the `...Locked` variants.
* JSON bodies are strings parsed by a small JSON parser (`parseJson`);
  numeric literals are integers, which covers every payload this API
  exchanges (timestamps, status codes, node counts).
-/

set_option linter.unusedVariables false
set_option maxHeartbeats 1000000

namespace VKE

/-! ## JSON values and parser

`encoding/json` behaviour needed by `UnmarshalResponse`: parse a full
JSON document, with objects, arrays, strings (with the common escapes),
integer numbers, booleans and null.  Trailing whitespace is accepted,
any other trailing input is an error, matching `json.Unmarshal`. -/

/-- A parsed JSON document.  Numbers are restricted to integers, which is
faithful for every body exchanged by this API. -/
inductive Json where
  | null
  | bool (b : Bool)
  | num (n : Int)
  | str (s : String)
  | arr (elems : List Json)
  | obj (fields : List (String × Json))
deriving BEq

/-- The opening-brace character, written by code point to keep brace
characters out of string literals. -/
def lbrace : Char := Char.ofNat 123

/-- The closing-brace character. -/
def rbrace : Char := Char.ofNat 125

/-- JSON insignificant whitespace. -/
def isWsChar (c : Char) : Bool := c == ' ' || c == '\n' || c == '\t' || c == '\r'

/-- Drop leading JSON whitespace. -/
def skipWs : List Char → List Char
  | [] => []
  | c :: rest => if isWsChar c then skipWs rest else c :: rest

/-- ASCII decimal digit test. -/
def isDigitChar (c : Char) : Bool := '0' ≤ c && c ≤ '9'

/-- Numeric value of an ASCII digit. -/
def digitOfChar (c : Char) : Nat := c.toNat - 48

/-- Consume a maximal run of digits, accumulating their decimal value. -/
def parseDigitsAux : List Char → Nat → Nat × List Char
  | [], acc => (acc, [])
  | c :: rest, acc =>
    if isDigitChar c then parseDigitsAux rest (acc * 10 + digitOfChar c)
    else (acc, c :: rest)

/-- Parse the remainder of a JSON string literal (the opening quote is
already consumed), handling the common escapes.  `\u` escapes are not
needed by any payload this API exchanges and are rejected. -/
def parseStringBody : List Char → List Char → Option (String × List Char)
  | [], _ => none
  | c :: rest, acc =>
    if c == '"' then some (String.mk acc.reverse, rest)
    else if c == '\\' then
      match rest with
      | [] => none
      | e :: rest2 =>
        if e == '"' then parseStringBody rest2 ('"' :: acc)
        else if e == '\\' then parseStringBody rest2 ('\\' :: acc)
        else if e == '/' then parseStringBody rest2 ('/' :: acc)
        else if e == 'n' then parseStringBody rest2 ('\n' :: acc)
        else if e == 't' then parseStringBody rest2 ('\t' :: acc)
        else if e == 'r' then parseStringBody rest2 ('\r' :: acc)
        else none
    else parseStringBody rest (c :: acc)

mutual

/-- Parse one JSON value.  `fuel` bounds the nesting depth; every nested
call consumes at least one character first, so `input length + 1` fuel
always suffices. -/
def parseValue : Nat → List Char → Option (Json × List Char)
  | 0, _ => none
  | fuel + 1, input =>
    match skipWs input with
    | [] => none
    | 'n' :: 'u' :: 'l' :: 'l' :: rest => some (.null, rest)
    | 't' :: 'r' :: 'u' :: 'e' :: rest => some (.bool true, rest)
    | 'f' :: 'a' :: 'l' :: 's' :: 'e' :: rest => some (.bool false, rest)
    | '"' :: rest =>
      match parseStringBody rest [] with
      | some (s, r) => some (.str s, r)
      | none => none
    | '[' :: rest =>
      match skipWs rest with
      | ']' :: r => some (.arr [], r)
      | other =>
        match parseArrElems fuel other with
        | some (vs, r) => some (.arr vs, r)
        | none => none
    | '-' :: rest =>
      match rest with
      | c :: _ =>
        if isDigitChar c then
          match parseDigitsAux rest 0 with
          | (n, r) => some (.num (-(n : Int)), r)
        else none
      | [] => none
    | c :: rest =>
      if c == lbrace then
        match skipWs rest with
        | other =>
          if other.head? == some rbrace then some (.obj [], other.tail)
          else
            match parseObjFields fuel other with
            | some (fs, r) => some (.obj fs, r)
            | none => none
      else if isDigitChar c then
        match parseDigitsAux (c :: rest) 0 with
        | (n, r) => some (.num (n : Int), r)
      else none

/-- Parse the members of a JSON object, starting at the first key and
consuming the closing brace. -/
def parseObjFields : Nat → List Char → Option (List (String × Json) × List Char)
  | 0, _ => none
  | fuel + 1, input =>
    match skipWs input with
    | '"' :: rest =>
      match parseStringBody rest [] with
      | none => none
      | some (key, r1) =>
        match skipWs r1 with
        | ':' :: r2 =>
          match parseValue fuel r2 with
          | none => none
          | some (v, r3) =>
            match skipWs r3 with
            | ',' :: r4 =>
              match parseObjFields fuel r4 with
              | some (fs, r5) => some ((key, v) :: fs, r5)
              | none => none
            | c :: r4 => if c == rbrace then some ([(key, v)], r4) else none
            | [] => none
        | _ => none
    | _ => none

/-- Parse the elements of a JSON array, starting at the first element and
consuming the closing bracket. -/
def parseArrElems : Nat → List Char → Option (List Json × List Char)
  | 0, _ => none
  | fuel + 1, input =>
    match parseValue fuel input with
    | none => none
    | some (v, r1) =>
      match skipWs r1 with
      | ',' :: r2 =>
        match parseArrElems fuel r2 with
        | some (vs, r3) => some (v :: vs, r3)
        | none => none
      | ']' :: r2 => some ([v], r2)
      | _ => none

end

/-- Parse a whole JSON document, requiring only whitespace after the
value, as `json.Unmarshal` does. -/
def parseJson (s : String) : Option Json :=
  match parseValue (s.length + 2) s.data with
  | some (v, rest) => if skipWs rest = [] then some v else none
  | none => none

/-- First binding of a key in a JSON object's field list. -/
def jsonLookup : List (String × Json) → String → Option Json
  | [], _ => none
  | (k, v) :: rest, key => if k = key then some v else jsonLookup rest key

/-! ## Data model -/

/-- The `APIError` record (`Code int`, `Message string`, `QueryID string`),
declared in the SDK next to `vke.go` and populated by `UnmarshalResponse`. -/
structure APIError where
  Code : Int
  Message : String
  QueryID : String
deriving DecidableEq

/-- The errors the client pipeline can return: a decoded `*APIError`, a
JSON decode error on a success body, a transport error from
`http.Client.Do`, a configuration error from `loadConfig`, and the
wrapped `fmt.Errorf("failed to create canadian VKE API client ...: %w", _)`
error of `CallAPIWithContext`. -/
inductive SdkError where
  | api (e : APIError)
  | decode (raw : String)
  | transport (msg : String)
  | config (msg : String)
  | fallbackCreate (inner : SdkError)
deriving DecidableEq

/-- An HTTP response as seen by `UnmarshalResponse`: status code, the
fully-read body, and the `X-VKE-QueryID` response header. -/
structure HttpResponse where
  statusCode : Nat
  body : String
  queryID : String
deriving DecidableEq

/-- The prescribed outcome of one `http.Client.Do` execution. -/
inductive DispatchOutcome where
  | transportErr (msg : String)
  | resp (r : HttpResponse)
deriving DecidableEq

/-- Result of a call: a value, an error, or `hang` — the goroutine blocks
forever on the second `Lock` of the non-reentrant `timeDeltaMutex` and
the call never returns. -/
inductive Outcome (α : Type) where
  | ok (a : α)
  | err (e : SdkError)
  | hang

/-- The mutable state of a `*Client` instance visible to the modelled
functions.  `timeDeltaMutex` itself is represented by which function
variant runs (`...Locked` = the current goroutine already holds it). -/
structure Client where
  AppKey : String
  AppSecret : String
  endpoint : String
  timeDeltaDone : Bool
  timeDelta : Int
  openStackToken : String
deriving DecidableEq

/-- Result of a stateful call: outcome, the client state it leaves
behind, the world outcomes not yet consumed, and the number of
`http.Client.Do` dispatches it executed (nested calls included). -/
structure CallResult (α : Type) where
  out : Outcome α
  client : Client
  world : List DispatchOutcome
  dispatches : Nat

/-- Ambient environment of a run: the `VKE_URL` environment variable, the
value of `getLocalTime().Unix()`, and the cross-region classifier.
Modelled from the spec: `IsPossiblyCanadianTenantSyncError` is declared
outside the sources at hand; §4.5 describes it only as a predicate on
the decoded error and the request URL, so it is carried as an abstract
boolean function. -/
structure Env where
  vkeURL : String
  now : Int
  isPossiblyCanadianTenantSyncError : SdkError → String → Bool

/-- The outbound message assembled by `NewRequest`: target URL, the
serialized body, the headers, and the sha1 signing input if the signing
branch ran (its digest is discarded by the source, so the input string
is what we record). -/
structure BuiltRequest where
  url : String
  body : Option String
  headers : List (String × String)
  signingInput : Option String
deriving DecidableEq

/-! ## Response decoding (`UnmarshalResponse`) -/

/-- Modelled from the spec: the JSON field layout of `APIError` is
declared outside the sources at hand; per §6 the error body shape is
`{"code": <int>, "message": <string>}`, so `json.Unmarshal(body, apiError)`
updates `Code` from `"code"` and `Message` from `"message"` when the body
is a JSON object, leaves the preset record unchanged on JSON `null`, and
fails on any other document or on a field-type mismatch (Go would fill
the other field before failing; the caller overwrites `Message` with the
raw body on failure either way, and no claim depends on the residue). -/
def unmarshalAPIErrorBody (body : String) (init : APIError) : Option APIError :=
  match parseJson body with
  | some (.obj fields) =>
    match jsonLookup fields "code", jsonLookup fields "message" with
    | some (.num k), some (.str s) => some { init with Code := k, Message := s }
    | some (.num k), none => some { init with Code := k }
    | none, some (.str s) => some { init with Message := s }
    | none, none => some init
    | _, _ => none
  | some .null => some init
  | _ => none

/-- Function `UnmarshalResponse` (vke.go 426-451).  `hasSink` models whether the
caller passed a non-nil `result`; a decoded success payload is returned
as a `Json` value in place of filling the sink. -/
def UnmarshalResponse (response : HttpResponse) (hasSink : Bool) : Except SdkError (Option Json) :=
  if response.statusCode < 200 ∨ 300 ≤ response.statusCode then
    let init : APIError := { Code := (response.statusCode : Int), Message := "", QueryID := "" }
    let ae : APIError :=
      match unmarshalAPIErrorBody response.body init with
      | some a => a
      | none => { init with Message := response.body }
    .error (.api { ae with QueryID := response.queryID })
  else if response.body = "" ∨ ¬hasSink then .ok none
  else
    match parseJson response.body with
    | some v => .ok (some v)
    | none => .error (.decode response.body)

/-! ## Request signing -/

/-- Decimal rendering of an `int64`, as Go's `%d` verb and Lean's
`ToString Int` instance both produce it. -/
def intRepr : Int → String
  | .ofNat m => Nat.repr m
  | .negSucc m => "-" ++ Nat.repr (m + 1)

/-- The sha1 signing input built by `NewRequest` (vke.go 318-325):
`fmt.Sprintf("%s+%s+%s+%s%s+%d", AppSecret, method, endpoint, path, body,
timestamp)`.  Note the `%s%s`: `path` and `body` are concatenated with no
delimiter between them. -/
def signingInput (secret method endpoint path body : String) (timestamp : Int) : String :=
  secret ++ "+" ++ method ++ "+" ++ endpoint ++ "+" ++ path ++ body ++ "+" ++ intRepr timestamp

/-- The construction described by the spec's words (§4.2: "concatenate
the fields with a fixed delimiter and fixed order"): all six fields
joined by one fixed delimiter `d`.  Kept separate from `signingInput`,
which is translated from the source, so the two can be compared. -/
def signingInputAllDelimited (d secret method endpoint path body : String) (timestamp : Int) : String :=
  secret ++ d ++ method ++ d ++ endpoint ++ d ++ path ++ d ++ body ++ d ++ intRepr timestamp

/-! ## Header assembly -/

/-- Model of `http.Header.Set`: replace every previous value of the key. -/
def setHeader (hs : List (String × String)) (k v : String) : List (String × String) :=
  hs.filter (fun p => p.1 ≠ k) ++ [(k, v)]

/-- The headers `NewRequest` attaches (vke.go 292-305): `Content-Type`
when a body is present, always `Accept`, the `X-Auth-Token` bearer header
when an OpenStack token is configured, then the caller-supplied headers
via `Header.Set` (caller wins on conflict). -/
def buildHeaders (body : Option String) (token : String) (caller : List (String × String)) : List (String × String) :=
  caller.foldl (fun hs kv => setHeader hs kv.1 kv.2)
    ((if body.isSome then [("Content-Type", "application/json;charset=utf-8")] else [])
      ++ [("Accept", "application/json")]
      ++ (if token = "" then [] else [("X-Auth-Token", token)]))

/-! ## Client construction (`NewClient` / `loadConfig`) -/

/-- Functions `loadConfig` and `NewClient` (vke.go 79-94, configuration.go 31-51):
resolve the endpoint (a name containing `/` is used as a URL directly,
otherwise it is looked up in `Endpoints`, whose only entry maps "vke" to
the `VKE_URL` environment value), then require a non-empty endpoint,
application key and application secret.  The `tenantid` argument is
accepted and ignored, as in the source. -/
def NewClient (env : Env) (endpoint appKey appSecret tenantid : String) : Except SdkError Client :=
  let resolved := if endpoint.data.contains '/' then endpoint
    else if endpoint = "vke" then env.vkeURL else ""
  if resolved = "" then
    .error (.config ("unknown endpoint '" ++ endpoint ++ "', consider checking 'Endpoints' list of using an URL"))
  else if appKey = "" then
    .error (.config "missing application key, please check your configuration or consult the documentation to create one")
  else if appSecret = "" then
    .error (.config "missing application secret, please check your configuration or consult the documentation to create one")
  else
    .ok { AppKey := appKey, AppSecret := appSecret, endpoint := resolved,
          timeDeltaDone := false, timeDelta := 0, openStackToken := "" }

/-! ## Node-pool update serialization -/

/-- Structure `UpdateNodePoolOpts` (nodepool.go 117-125): every field is
`omitempty` — nil pointers and empty slices are not serialized. -/
structure UpdateNodePoolOpts where
  MinNodes : Option Nat
  MaxNodes : Option Nat
  Autoscale : Option Bool
  NodesToRemove : List String
deriving DecidableEq

/-- Go `encoding/json` string quoting, restricted to strings without
characters that need escaping (node names here are plain identifiers). -/
def quoteJsonString (s : String) : String := "\"" ++ s ++ "\""

/-- Comma-join of serialized fields, as `encoding/json` emits them. -/
def joinComma : List String → String
  | [] => ""
  | [x] => x
  | x :: rest => x ++ "," ++ joinComma rest

/-- Model of `json.Marshal` on an `UpdateNodePoolOpts` value: fields in struct
declaration order, each omitted when unset (`omitempty`). -/
def serializeUpdateNodePoolOpts (o : UpdateNodePoolOpts) : String :=
  let fields : List String :=
    (match o.MinNodes with
     | some n => ["\"minNodes\":" ++ Nat.repr n]
     | none => []) ++
    (match o.MaxNodes with
     | some n => ["\"maxNodes\":" ++ Nat.repr n]
     | none => []) ++
    (match o.Autoscale with
     | some b => ["\"autoscale\":" ++ (if b then "true" else "false")]
     | none => []) ++
    (match o.NodesToRemove with
     | [] => []
     | xs => ["\"nodesToRemove\":[" ++ joinComma (xs.map quoteJsonString) ++ "]"])
  String.singleton lbrace ++ joinComma fields ++ String.singleton rbrace

/-! ## The call pipeline

The source call graph is cyclic: `NewRequest` calls `TimeDelta`, whose
fetch runs `getTime → GetUnAuth → CallAPI → CallAPIWithContext →
NewRequest` while `timeDeltaMutex` is held by the current goroutine.
Each function therefore appears in two flavours: the plain one runs with
the mutex free, the `...Locked` one runs while the current goroutine
already holds it (the situation inside `getTimeDelta`'s critical
section).  The `...Locked` flavour of `getTimeDelta` deadlocks instead
of locking twice, which makes it non-recursive and breaks the cycle. -/

/-- Function `getTimeDelta` (vke.go 226-247) executed while the current goroutine
already holds `timeDeltaMutex`: the unguarded fast path returns the
cached delta when `timeDeltaDone` is set; otherwise the function reaches
`timeDeltaMutex.Lock()` and, `sync.Mutex` being non-reentrant, blocks
forever before any fetch is attempted. -/
def getTimeDeltaLocked (c : Client) : Outcome Int :=
  if c.timeDeltaDone then .ok c.timeDelta else .hang

/-- Function `NewRequest` (vke.go 275-332) executed while the current goroutine
holds `timeDeltaMutex` — the shape taken by the unauthenticated
`/auth/time` request issued from inside `getTimeDelta`'s critical
section.  `queryParams` is omitted: the source never encodes it into the
URL (`target := fmt.Sprintf("%s%s", c.endpoint, path)`).  `needAuth` is
accepted and ignored, as in the source: the signing branch is guarded by
`c.openStackToken == ""` alone. -/
def NewRequestLocked (env : Env) (c : Client) (method path : String)
    (body : Option String) (headers : List (String × String)) (needAuth : Bool) :
    Outcome BuiltRequest :=
  let target := c.endpoint ++ path
  let hs := buildHeaders body c.openStackToken headers
  if c.openStackToken = "" then
    match getTimeDeltaLocked c with
    | .ok d =>
      .ok { url := target, body := body, headers := hs,
            signingInput := some (signingInput c.AppSecret method c.endpoint path
              (body.getD "") (env.now - d)) }
    | .err e => .err e
    | .hang => .hang
  else
    .ok { url := target, body := body, headers := hs, signingInput := none }

/-- Cache a fetched server time as the client's clock delta: the success
branch of `getTimeDelta`'s critical section (vke.go 236-243),
`timeDelta := time.Since(*vkeTime)` and `timeDeltaDone := true`; fetch
errors are returned without caching anything. -/
def finishGetTimeDelta (now : Int) (r : CallResult Int) : CallResult Int :=
  match r.out with
  | .ok t =>
    { out := .ok (now - t),
      client := { r.client with timeDeltaDone := true, timeDelta := now - t },
      world := r.world, dispatches := r.dispatches }
  | .err e => { out := .err e, client := r.client, world := r.world, dispatches := r.dispatches }
  | .hang => { out := .hang, client := r.client, world := r.world, dispatches := r.dispatches }

/-- Decode the `/auth/time` payload into the `timestamp int64` sink
(vke.go 250-259): a JSON integer is the timestamp, an empty success body
leaves the zero value in place, and any other payload is the decode
error `json.Unmarshal` raises for a non-integer document. -/
def decodeGetTime (r : CallResult (Option Json)) : CallResult Int :=
  match r.out with
  | .ok (some (.num n)) => { out := .ok n, client := r.client, world := r.world, dispatches := r.dispatches }
  | .ok (some _) => { out := .err (.decode "/auth/time"), client := r.client, world := r.world, dispatches := r.dispatches }
  | .ok none => { out := .ok 0, client := r.client, world := r.world, dispatches := r.dispatches }
  | .err e => { out := .err e, client := r.client, world := r.world, dispatches := r.dispatches }
  | .hang => { out := .hang, client := r.client, world := r.world, dispatches := r.dispatches }

/-- Attach the computed signature input to a request under construction:
the tail of `NewRequest`'s signing branch (vke.go 309-326), applied to
the result of its `TimeDelta()` call. -/
def attachSignature (env : Env) (c : Client) (method path : String)
    (body : Option String) (headers : List (String × String)) (r : CallResult Int) :
    CallResult BuiltRequest :=
  match r.out with
  | .ok d =>
    { out := .ok { url := c.endpoint ++ path, body := body,
                   headers := buildHeaders body c.openStackToken headers,
                   signingInput := some (signingInput c.AppSecret method c.endpoint path
                     (body.getD "") (env.now - d)) },
      client := r.client, world := r.world, dispatches := r.dispatches }
  | .err e => { out := .err e, client := r.client, world := r.world, dispatches := r.dispatches }
  | .hang => { out := .hang, client := r.client, world := r.world, dispatches := r.dispatches }

/-- Continuation application after `NewRequest` inside
`CallAPIWithContext` (vke.go 392-397): on success the continuation
receives the built request and the client; `NewRequest` errors are
returned unchanged, a hung `NewRequest` hangs the whole call.
`NewRequest` never consumes world outcomes and never dispatches
(`NewRequest_frame` below), so the continuation proceeds from the
caller's own world. -/
def bindNewRequest (r : CallResult BuiltRequest)
    (k : BuiltRequest → Client → CallResult (Option Json)) : CallResult (Option Json) :=
  match r.out with
  | .ok req => k req r.client
  | .err e => { out := .err e, client := r.client, world := r.world, dispatches := r.dispatches }
  | .hang => { out := .hang, client := r.client, world := r.world, dispatches := r.dispatches }

/-- Combine the fallback call's result with the original error
(vke.go 413-418): a successful fallback replaces the original outcome
entirely; a failed fallback is discarded and the original error `e` is
returned.  `base` is the dispatch count of the original attempt. -/
def fallbackCombine (e : SdkError) (c1 : Client) (base : Nat)
    (r : CallResult (Option Json)) : CallResult (Option Json) :=
  match r.out with
  | .ok v => { out := .ok v, client := c1, world := r.world, dispatches := base + r.dispatches }
  | .err _ => { out := .err e, client := c1, world := r.world, dispatches := base + r.dispatches }
  | .hang => { out := .hang, client := r.client, world := r.world, dispatches := base + r.dispatches }

/-- Decode a dispatched response and apply the failover policy
(vke.go 402-421): on a decode success return the payload; on a decode
error consult the classifier with the request URL; when it matches, use
the prepared fallback result `fbRes` — `Except.error` when the fallback
client could not be created (the wrapped creation error is returned),
otherwise the result of re-issuing the entire call through the fallback
client, combined with the original error by `fallbackCombine`.  `fbRes`
is a pure value examined only in the classifier-match branch, which
matches the source's lazy evaluation. -/
def afterDispatch (env : Env) (c1 : Client) (req : BuiltRequest) (resp : HttpResponse)
    (rest : List DispatchOutcome) (fbRes : Except SdkError (CallResult (Option Json)))
    (hasSink : Bool) : CallResult (Option Json) :=
  match UnmarshalResponse resp hasSink with
  | .ok v => { out := .ok v, client := c1, world := rest, dispatches := 1 }
  | .error e =>
    if env.isPossiblyCanadianTenantSyncError e req.url then
      match fbRes with
      | .error e2 => { out := .err (.fallbackCreate e2), client := c1, world := rest, dispatches := 1 }
      | .ok r => fallbackCombine e c1 1 r
    else { out := .err e, client := c1, world := rest, dispatches := 1 }

mutual

/-- Function `getTimeDelta` (vke.go 226-247) with the mutex free: return the
cached delta if `timeDeltaDone`, otherwise lock the mutex (which
succeeds), re-check the flag, fetch the server time and cache the
offset `now - serverTime` on success. -/
def getTimeDelta (env : Env) (c : Client) (w : List DispatchOutcome) : CallResult Int :=
  if c.timeDeltaDone then { out := .ok c.timeDelta, client := c, world := w, dispatches := 0 }
  else finishGetTimeDelta env.now (getTime env c w)
termination_by (w.length, 2)

/-- Function `getTime` (vke.go 250-260) as invoked from `getTimeDelta`'s critical
section: `GetUnAuth("/auth/time", &timestamp, nil)` runs `CallAPI →
CallAPIWithContext` with the mutex held by the current goroutine. -/
def getTime (env : Env) (c : Client) (w : List DispatchOutcome) : CallResult Int :=
  decodeGetTime (CallAPIWithContextLocked env c "GET" "/auth/time" none [] true false w)
termination_by (w.length, 1)

/-- Function `NewRequest` (vke.go 275-332) with the mutex free.  When no
OpenStack token is configured the signing branch runs `TimeDelta()` and
builds the sha1 input; with a token the request only carries the bearer
header.  `needAuth` is ignored by the source.  `queryParams` is omitted:
the source never encodes it into the URL. -/
def NewRequest (env : Env) (c : Client) (method path : String) (body : Option String)
    (headers : List (String × String)) (needAuth : Bool) (w : List DispatchOutcome) :
    CallResult BuiltRequest :=
  if c.openStackToken = "" then
    attachSignature env c method path body headers (getTimeDelta env c w)
  else
    { out := .ok { url := c.endpoint ++ path, body := body,
                   headers := buildHeaders body c.openStackToken headers,
                   signingInput := none },
      client := c, world := w, dispatches := 0 }
termination_by (w.length, 3)

/-- Function `CallAPIWithContext` (vke.go 391-422) executed while the current
goroutine holds `timeDeltaMutex` (the `/auth/time` fetch): identical to
`CallAPIWithContext` below except that its `NewRequest` step runs under
the held mutex.  The fallback client is freshly created with its own
mutex, so the fallback call runs the mutex-free flavour. -/
def CallAPIWithContextLocked (env : Env) (c : Client) (method path : String)
    (body : Option String) (headers : List (String × String)) (hasSink needAuth : Bool)
    (w : List DispatchOutcome) : CallResult (Option Json) :=
  match NewRequestLocked env c method path body headers needAuth with
  | .err e => { out := .err e, client := c, world := w, dispatches := 0 }
  | .hang => { out := .hang, client := c, world := w, dispatches := 0 }
  | .ok req =>
    match w with
    | [] => { out := .err (.transport "no response"), client := c, world := [], dispatches := 0 }
    | .transportErr m :: rest =>
      { out := .err (.transport m), client := c, world := rest, dispatches := 1 }
    | .resp resp :: rest =>
      afterDispatch env c req resp rest
        ((NewClient env env.vkeURL "none" "none" "").map (fun fb =>
          CallAPIWithContext env { fb with openStackToken := c.openStackToken }
            method path body headers hasSink needAuth rest)) hasSink
termination_by (w.length, 0)

/-- Function `CallAPIWithContext` (vke.go 391-422) with the mutex free: build the
request, dispatch it, decode the response; when decoding fails and the
classifier recognizes the cross-region condition, create a fallback
client against `VKE_URL` carrying over the caller's OpenStack token and
re-issue the entire call through it once, then combine the results
(`fallbackCombine`).  Transport errors from `Do` return immediately and
are never classified. -/
def CallAPIWithContext (env : Env) (c : Client) (method path : String)
    (body : Option String) (headers : List (String × String)) (hasSink needAuth : Bool) :
    List DispatchOutcome → CallResult (Option Json)
  | [] =>
    bindNewRequest (NewRequest env c method path body headers needAuth [])
      (fun _ c1 => { out := .err (.transport "no response"), client := c1, world := [], dispatches := 0 })
  | .transportErr m :: rest =>
    bindNewRequest (NewRequest env c method path body headers needAuth (.transportErr m :: rest))
      (fun _ c1 => { out := .err (.transport m), client := c1, world := rest, dispatches := 1 })
  | .resp resp :: rest =>
    bindNewRequest (NewRequest env c method path body headers needAuth (.resp resp :: rest))
      (fun req c1 => afterDispatch env c1 req resp rest
        ((NewClient env env.vkeURL "none" "none" "").map (fun fb =>
          CallAPIWithContext env { fb with openStackToken := c.openStackToken }
            method path body headers hasSink needAuth rest)) hasSink)
termination_by w => (w.length, 4)

end

/-- Function `TimeDelta` (vke.go 133-135): the public entry point to the clock
synchronizer, invoked with the mutex free. -/
def TimeDelta (env : Env) (c : Client) (w : List DispatchOutcome) : CallResult Int :=
  getTimeDelta env c w

/-- Function `CallAPI` (vke.go 367-369): `CallAPIWithContext` with a background
context and no extra headers. -/
def CallAPI (env : Env) (c : Client) (method path : String) (body : Option String)
    (hasSink needAuth : Bool) (w : List DispatchOutcome) : CallResult (Option Json) :=
  CallAPIWithContext env c method path body [] hasSink needAuth w

/-! ## Node-pool resource client (nodepool.go) -/

/-- Function `ListNodePools` (nodepool.go 39-52): `GET /cluster/{id}/nodegroups`
into the `nodepools` sink, authenticated, error returned as-is. -/
def ListNodePools (env : Env) (c : Client) (clusterID : String)
    (w : List DispatchOutcome) : CallResult (Option Json) :=
  CallAPIWithContext env c "GET" ("/cluster/" ++ clusterID ++ "/nodegroups") none [] true true w

/-- Function `GetNodePool` (nodepool.go 55-68). -/
def GetNodePool (env : Env) (c : Client) (clusterID poolID : String)
    (w : List DispatchOutcome) : CallResult (Option Json) :=
  CallAPIWithContext env c "GET" ("/cluster/" ++ clusterID ++ "/nodepool/" ++ poolID)
    none [] true true w

/-- Function `ListNodePoolNodes` (nodepool.go 71-84). -/
def ListNodePoolNodes (env : Env) (c : Client) (clusterID poolID : String)
    (w : List DispatchOutcome) : CallResult (Option Json) :=
  CallAPIWithContext env c "GET"
    ("/cluster/" ++ clusterID ++ "/nodegroups/" ++ poolID ++ "/nodes") none [] true true w

/-- Function `CreateNodePool` (nodepool.go 102-115); `opts` is the
`json.Marshal`ed `CreateNodePoolOpts` body. -/
def CreateNodePool (env : Env) (c : Client) (projectID clusterID : String)
    (opts : Option String) (w : List DispatchOutcome) : CallResult (Option Json) :=
  CallAPIWithContext env c "POST"
    ("/cloud/project/" ++ projectID ++ "/kube/" ++ clusterID ++ "/nodepool") opts [] true true w

/-- Function `UpdateNodePool` (nodepool.go 128-141): `PUT` of the serialized
options, used to realize scale-up and scale-down. -/
def UpdateNodePool (env : Env) (c : Client) (clusterID poolID : String)
    (opts : UpdateNodePoolOpts) (w : List DispatchOutcome) : CallResult (Option Json) :=
  CallAPIWithContext env c "PUT" ("/cluster/" ++ clusterID ++ "/nodegroups/" ++ poolID)
    (some (serializeUpdateNodePoolOpts opts)) [] true true w

/-- Function `DeleteNodePool` (nodepool.go 145-158). -/
def DeleteNodePool (env : Env) (c : Client) (projectID clusterID poolID : String)
    (w : List DispatchOutcome) : CallResult (Option Json) :=
  CallAPIWithContext env c "DELETE"
    ("/cloud/project/" ++ projectID ++ "/kube/" ++ clusterID ++ "/nodepool/" ++ poolID)
    none [] true true w

/-- Function `DeleteNode` (nodepool.go 159-172): the underlying call's outcome is
evaluated and discarded — the function body ends in `return nil`
unconditionally.  Only a call that never returns (hang) can keep
`DeleteNode` from returning success. -/
def DeleteNode (env : Env) (c : Client) (clusterID NodeGroupID NodeName : String)
    (w : List DispatchOutcome) : CallResult Unit :=
  let r := CallAPIWithContext env c "DELETE"
    ("/cluster/" ++ clusterID ++ "/nodegroups/" ++ NodeGroupID ++ "/nodes/" ++ NodeName)
    none [] false true w
  match r.out with
  | .hang => { out := .hang, client := r.client, world := r.world, dispatches := r.dispatches }
  | _ => { out := .ok (), client := r.client, world := r.world, dispatches := r.dispatches }

/-- Function `AddNode` (nodepool.go 173-186). -/
def AddNode (env : Env) (c : Client) (clusterID NodeGroupID : String)
    (w : List DispatchOutcome) : CallResult (Option Json) :=
  CallAPIWithContext env c "PUT"
    ("/cluster/" ++ clusterID ++ "/nodegroups/" ++ NodeGroupID ++ "/nodes/add") none [] true true w

/-! ## Concurrent first-time callers of the clock synchronizer

`timeDeltaMutex` makes `getTimeDelta`'s critical section mutually
exclusive, so under sequential consistency a run of `n` concurrent
callers on one client is a serial order of `n` `getTimeDelta`
executions, each starting from the state the previous one left behind.
A caller that hangs holds the mutex forever, so the callers behind it
never return and the run stops. -/
def raceGetTimeDelta (env : Env) : Nat → Client → List DispatchOutcome →
    List (Outcome Int) × Client × List DispatchOutcome × Nat
  | 0, c, w => ([], c, w, 0)
  | n + 1, c, w =>
    let r := getTimeDelta env c w
    match r.out with
    | .hang => ([.hang], r.client, r.world, r.dispatches)
    | o =>
      match raceGetTimeDelta env n r.client r.world with
      | (os, c2, w2, k2) => (o :: os, c2, w2, r.dispatches + k2)

/-! ## Concrete fixtures used by witnesses and counterexamples -/

/-- A classifier that recognizes every decoded `APIError` as the
cross-region condition (transport and decode errors are not the
pattern §4.5 describes). -/
def classifierApiOnly : SdkError → String → Bool := fun e _ =>
  match e with
  | .api _ => true
  | _ => false

/-- Environment fixture: a slash-containing `VKE_URL` (so the fallback
client resolves it as a URL), local time 100, the classifier above. -/
def envW : Env :=
  { vkeURL := "https://ca.vke.example/api", now := 100,
    isPossiblyCanadianTenantSyncError := classifierApiOnly }

/-- A client carrying an OpenStack token (the `NewDefaultClientWithToken`
shape actually used by the autoscaler). -/
def tokenClient : Client :=
  { AppKey := "k", AppSecret := "s", endpoint := "https://tr.vke.example/api",
    timeDeltaDone := false, timeDelta := 0, openStackToken := "tok" }

/-- A freshly constructed credential-pair client: no token, no cached
delta. -/
def signedClient : Client :=
  { AppKey := "k", AppSecret := "s", endpoint := "https://tr.vke.example/api",
    timeDeltaDone := false, timeDelta := 0, openStackToken := "" }

/-- A credential-pair client whose clock delta is already cached. -/
def cachedSignedClient : Client :=
  { signedClient with timeDeltaDone := true, timeDelta := 7 }

/-- A dispatch that comes back with status 500 and an empty body. -/
abbrev resp500 : DispatchOutcome := .resp { statusCode := 500, body := "", queryID := "" }

/-- A dispatch that comes back with status 200 and the given body. -/
abbrev resp200 (body : String) : DispatchOutcome :=
  .resp { statusCode := 200, body := body, queryID := "" }

/-- Decimal value of a digit string, most-significant first: the left
inverse of `Nat.repr` used to prove decimal rendering injective. -/
def valDigits (cs : List Char) : Nat := cs.foldl (fun a c => a * 10 + digitOfChar c) 0

/-! # Theorems -/

/-! ## Decimal rendering is injective -/

theorem valDigits_foldl_aux (cs : List Char) : ∀ a : Nat,
    cs.foldl (fun x c => x * 10 + digitOfChar c) a = a * 10 ^ cs.length + valDigits cs := by
  induction cs with
  | nil => intro a; simp [valDigits]
  | cons c cs ih =>
    intro a
    simp only [List.foldl_cons, List.length_cons, valDigits] at *
    rw [ih (a * 10 + digitOfChar c), ih (0 * 10 + digitOfChar c)]
    ring

theorem digitOfChar_digitChar (d : Nat) (h : d < 10) : digitOfChar (Nat.digitChar d) = d := by
  interval_cases d <;> decide

theorem valDigits_cons (c : Char) (cs : List Char) :
    valDigits (c :: cs) = digitOfChar c * 10 ^ cs.length + valDigits cs := by
  simp only [valDigits, List.foldl_cons]
  rw [valDigits_foldl_aux]
  unfold valDigits
  ring

theorem toDigitsCore_val : ∀ (f n : Nat) (acc : List Char), n < f →
    valDigits (Nat.toDigitsCore 10 f n acc) = n * 10 ^ acc.length + valDigits acc := by
  intro f
  induction f with
  | zero => intro n acc h; omega
  | succ f ih =>
    intro n acc h
    simp only [Nat.toDigitsCore]
    by_cases h10 : n / 10 = 0
    · simp only [h10, if_true]
      rw [valDigits_cons]
      rw [digitOfChar_digitChar _ (by omega)]
      have he : n % 10 = n := by omega
      rw [he]
    · simp only [h10, if_false]
      rw [ih (n / 10) (Nat.digitChar (n % 10) :: acc) (by omega)]
      rw [valDigits_cons]
      rw [digitOfChar_digitChar _ (by omega)]
      have hn : n / 10 * 10 + n % 10 = n := by omega
      calc n / 10 * 10 ^ (Nat.digitChar (n % 10) :: acc).length +
            (n % 10 * 10 ^ acc.length + valDigits acc)
          = (n / 10 * 10 + n % 10) * 10 ^ acc.length + valDigits acc := by
            simp [List.length_cons, pow_succ]; ring
        _ = n * 10 ^ acc.length + valDigits acc := by rw [hn]

theorem valDigits_repr (n : Nat) : valDigits (Nat.repr n).data = n := by
  have h := toDigitsCore_val (n + 1) n [] (Nat.lt_succ_self n)
  simpa [Nat.repr, Nat.toDigits, List.asString, valDigits] using h

theorem natRepr_inj {m n : Nat} (h : Nat.repr m = Nat.repr n) : m = n := by
  have h2 : valDigits (Nat.repr m).data = valDigits (Nat.repr n).data := by rw [h]
  rwa [valDigits_repr, valDigits_repr] at h2

theorem toDigitsCore_head : ∀ (f n : Nat) (acc : List Char), 1 ≤ f →
    ∃ d rest, d < 10 ∧ Nat.toDigitsCore 10 f n acc = Nat.digitChar d :: rest := by
  intro f
  induction f with
  | zero => intro n acc h; omega
  | succ f ih =>
    intro n acc _
    simp only [Nat.toDigitsCore]
    by_cases h10 : n / 10 = 0
    · simp only [h10, if_true]
      exact ⟨n % 10, acc, by omega, rfl⟩
    · simp only [h10, if_false]
      cases f with
      | zero => exact ⟨n % 10, acc, by omega, rfl⟩
      | succ f2 => exact ih (n / 10) (Nat.digitChar (n % 10) :: acc) (by omega)

theorem repr_head (n : Nat) :
    ∃ d rest, d < 10 ∧ (Nat.repr n).data = Nat.digitChar d :: rest := by
  have h := toDigitsCore_head (n + 1) n [] (by omega)
  simpa [Nat.repr, Nat.toDigits, List.asString] using h

theorem digitChar_ne_dash (d : Nat) (h : d < 10) : Nat.digitChar d ≠ '-' := by
  interval_cases d <;> decide

theorem string_eq_of_data_eq {a b : String} (h : a.data = b.data) : a = b := by
  cases a; cases b; exact congrArg String.mk h

theorem string_append_cancel_right {a b t : String} (h : a ++ t = b ++ t) : a = b := by
  have h2 := congrArg String.data h
  rw [String.data_append, String.data_append] at h2
  exact string_eq_of_data_eq (List.append_cancel_right h2)

theorem string_append_cancel_left {t a b : String} (h : t ++ a = t ++ b) : a = b := by
  have h2 := congrArg String.data h
  rw [String.data_append, String.data_append] at h2
  exact string_eq_of_data_eq (List.append_cancel_left h2)

theorem intRepr_inj {a b : Int} (h : intRepr a = intRepr b) : a = b := by
  cases a with
  | ofNat m =>
    cases b with
    | ofNat n => exact congrArg Int.ofNat (natRepr_inj h)
    | negSucc n =>
      exfalso
      have hd := congrArg String.data h
      simp only [intRepr, String.data_append] at hd
      obtain ⟨d, rest, hd10, hm⟩ := repr_head m
      rw [hm] at hd
      simp only [List.singleton_append] at hd
      exact digitChar_ne_dash d hd10 (List.head_eq_of_cons_eq hd)
  | negSucc m =>
    cases b with
    | ofNat n =>
      exfalso
      have hd := congrArg String.data h.symm
      simp only [intRepr, String.data_append] at hd
      obtain ⟨d, rest, hd10, hm⟩ := repr_head n
      rw [hm] at hd
      simp only [List.singleton_append] at hd
      exact digitChar_ne_dash d hd10 (List.head_eq_of_cons_eq hd)
    | negSucc n =>
      have h2 : Nat.repr (m + 1) = Nat.repr (n + 1) :=
        string_append_cancel_left (t := "-") h
      have := natRepr_inj h2
      have hmn : m = n := by omega
      exact congrArg Int.negSucc hmn

/-! ## C5 — the signing input -/

/-- C5 counterexample: the signing input is NOT the six fields
concatenated with a fixed delimiter — `fmt.Sprintf("%s+%s+%s+%s%s+%d", ...)`
puts no delimiter between `path` and `body`, and no choice of a single
fixed delimiter reproduces the source's construction (with six fields
there would be five separators, but the format string has four). -/
theorem claim_C5_counterexample :
    signingInput "s" "m" "e" "p" "b" 1 ≠ signingInputAllDelimited "+" "s" "m" "e" "p" "b" 1 ∧
    ¬ ∃ d : String, ∀ (secret method endpoint path body : String) (t : Int),
      signingInput secret method endpoint path body t =
        signingInputAllDelimited d secret method endpoint path body t := by
  refine ⟨by decide, ?_⟩
  rintro ⟨d, hall⟩
  have h1 := hall "" "" "" "" "" 0
  have h0 : signingInput "" "" "" "" "" 0 = "++++0" := rfl
  rw [h0] at h1
  have h2 := congrArg String.length h1
  simp only [signingInputAllDelimited, String.length_append] at h2
  have e1 : ("++++0" : String).length = 5 := rfl
  have e2 : ("" : String).length = 0 := rfl
  have e3 : (intRepr 0).length = 1 := rfl
  rw [e1, e2, e3] at h2
  omega

/-- C5 (amended): the signing input concatenates
{secret, method, endpoint, path, body, timestamp} in this fixed order,
with the delimiter `+` between consecutive fields except between `path`
and `body`, which are concatenated directly; consequently identical
fields give an identical signing input (and hence signature, the digest
being a function of it), and changing any single one of the six fields
while keeping the others changes the signing input. -/
theorem claim_C5_amended :
    (∀ (secret method endpoint path body : String) (t : Int),
      signingInput secret method endpoint path body t =
        secret ++ "+" ++ method ++ "+" ++ endpoint ++ "+" ++ path ++ body ++ "+" ++ intRepr t) ∧
    (∀ (s s' method endpoint path body : String) (t : Int), s ≠ s' →
      signingInput s method endpoint path body t ≠
        signingInput s' method endpoint path body t) ∧
    (∀ (secret m m' endpoint path body : String) (t : Int), m ≠ m' →
      signingInput secret m endpoint path body t ≠
        signingInput secret m' endpoint path body t) ∧
    (∀ (secret method e e' path body : String) (t : Int), e ≠ e' →
      signingInput secret method e path body t ≠
        signingInput secret method e' path body t) ∧
    (∀ (secret method endpoint p p' body : String) (t : Int), p ≠ p' →
      signingInput secret method endpoint p body t ≠
        signingInput secret method endpoint p' body t) ∧
    (∀ (secret method endpoint path b b' : String) (t : Int), b ≠ b' →
      signingInput secret method endpoint path b t ≠
        signingInput secret method endpoint path b' t) ∧
    (∀ (secret method endpoint path body : String) (t t' : Int), t ≠ t' →
      signingInput secret method endpoint path body t ≠
        signingInput secret method endpoint path body t') := by
  refine ⟨fun _ _ _ _ _ _ => rfl, ?_, ?_, ?_, ?_, ?_, ?_⟩
  · intro s s' m e p b t hne heq
    simp only [signingInput] at heq
    exact hne (string_append_cancel_right (string_append_cancel_right
      (string_append_cancel_right (string_append_cancel_right (string_append_cancel_right
      (string_append_cancel_right (string_append_cancel_right (string_append_cancel_right
      (string_append_cancel_right heq)))))))))
  · intro s m m' e p b t hne heq
    simp only [signingInput] at heq
    exact hne (string_append_cancel_left (string_append_cancel_right
      (string_append_cancel_right (string_append_cancel_right (string_append_cancel_right
      (string_append_cancel_right (string_append_cancel_right (string_append_cancel_right
      heq))))))))
  · intro s m e e' p b t hne heq
    simp only [signingInput] at heq
    exact hne (string_append_cancel_left (string_append_cancel_right
      (string_append_cancel_right (string_append_cancel_right (string_append_cancel_right
      (string_append_cancel_right heq))))))
  · intro s m e p p' b t hne heq
    simp only [signingInput] at heq
    exact hne (string_append_cancel_left (string_append_cancel_right
      (string_append_cancel_right (string_append_cancel_right heq))))
  · intro s m e p b b' t hne heq
    simp only [signingInput] at heq
    exact hne (string_append_cancel_left (string_append_cancel_right
      (string_append_cancel_right heq)))
  · intro s m e p b t t' hne heq
    simp only [signingInput] at heq
    exact hne (intRepr_inj (string_append_cancel_left heq))

/-- C5 witness: the amended statement applied at concrete fields. -/
theorem claim_C5_witness :
    signingInput "sec" "GET" "https://e" "/p" "B" 9 =
      "sec" ++ "+" ++ "GET" ++ "+" ++ "https://e" ++ "+" ++ "/p" ++ "B" ++ "+" ++ intRepr 9 ∧
    signingInput "sec" "GET" "https://e" "/p" "B" 9 ≠
      signingInput "other" "GET" "https://e" "/p" "B" 9 ∧
    signingInput "sec" "GET" "https://e" "/p" "B" 9 ≠
      signingInput "sec" "PUT" "https://e" "/p" "B" 9 ∧
    signingInput "sec" "GET" "https://e" "/p" "B" 9 ≠
      signingInput "sec" "GET" "https://f" "/p" "B" 9 ∧
    signingInput "sec" "GET" "https://e" "/p" "B" 9 ≠
      signingInput "sec" "GET" "https://e" "/q" "B" 9 ∧
    signingInput "sec" "GET" "https://e" "/p" "B" 9 ≠
      signingInput "sec" "GET" "https://e" "/p" "C" 9 ∧
    signingInput "sec" "GET" "https://e" "/p" "B" 9 ≠
      signingInput "sec" "GET" "https://e" "/p" "B" 10 :=
  ⟨claim_C5_amended.1 "sec" "GET" "https://e" "/p" "B" 9,
   claim_C5_amended.2.1 "sec" "other" "GET" "https://e" "/p" "B" 9 (by decide),
   claim_C5_amended.2.2.1 "sec" "GET" "PUT" "https://e" "/p" "B" 9 (by decide),
   claim_C5_amended.2.2.2.1 "sec" "GET" "https://e" "https://f" "/p" "B" 9 (by decide),
   claim_C5_amended.2.2.2.2.1 "sec" "GET" "https://e" "/p" "/q" "B" 9 (by decide),
   claim_C5_amended.2.2.2.2.2.1 "sec" "GET" "https://e" "/p" "B" "C" 9 (by decide),
   claim_C5_amended.2.2.2.2.2.2 "sec" "GET" "https://e" "/p" "B" 9 10 (by decide)⟩

/-! ## Pipeline frame lemmas -/

theorem getTimeDelta_cached (env : Env) (c : Client) (w : List DispatchOutcome)
    (h : c.timeDeltaDone = true) :
    getTimeDelta env c w = ⟨.ok c.timeDelta, c, w, 0⟩ := by
  rw [getTimeDelta.eq_def]
  simp [h]

/-- A token-less client with an uncached delta can never complete its
time fetch: the `/auth/time` request is built by `NewRequest` under the
held `timeDeltaMutex`, whose `TimeDelta()` call re-enters `getTimeDelta`
and blocks on the second `Lock`.  No dispatch happens and no state
changes. -/
theorem timeFetch_hang (env : Env) (c : Client) (w : List DispatchOutcome)
    (htok : c.openStackToken = "") (hdone : c.timeDeltaDone = false) :
    getTimeDelta env c w = ⟨.hang, c, w, 0⟩ := by
  rw [getTimeDelta.eq_def]
  rw [getTime.eq_def]
  rw [CallAPIWithContextLocked.eq_def]
  simp [hdone, htok, NewRequestLocked, getTimeDeltaLocked, decodeGetTime, finishGetTimeDelta]

theorem NewRequest_bearer (env : Env) (c : Client) (method path : String)
    (body : Option String) (headers : List (String × String)) (needAuth : Bool)
    (w : List DispatchOutcome) (h : c.openStackToken ≠ "") :
    NewRequest env c method path body headers needAuth w =
      ⟨.ok { url := c.endpoint ++ path, body := body,
             headers := buildHeaders body c.openStackToken headers, signingInput := none },
       c, w, 0⟩ := by
  rw [NewRequest.eq_def]
  simp [h]

theorem NewRequest_signed_cached (env : Env) (c : Client) (method path : String)
    (body : Option String) (headers : List (String × String)) (needAuth : Bool)
    (w : List DispatchOutcome) (htok : c.openStackToken = "") (hdone : c.timeDeltaDone = true) :
    NewRequest env c method path body headers needAuth w =
      ⟨.ok { url := c.endpoint ++ path, body := body,
             headers := buildHeaders body c.openStackToken headers,
             signingInput := some (signingInput c.AppSecret method c.endpoint path
               (body.getD "") (env.now - c.timeDelta)) },
       c, w, 0⟩ := by
  rw [NewRequest.eq_def]
  simp [htok, getTimeDelta_cached env c w hdone, attachSignature]

theorem NewRequest_hang (env : Env) (c : Client) (method path : String)
    (body : Option String) (headers : List (String × String)) (needAuth : Bool)
    (w : List DispatchOutcome) (htok : c.openStackToken = "") (hdone : c.timeDeltaDone = false) :
    NewRequest env c method path body headers needAuth w = ⟨.hang, c, w, 0⟩ := by
  rw [NewRequest.eq_def]
  simp [htok, timeFetch_hang env c w htok hdone, attachSignature]

/-- Whenever `NewRequest` does not hang, it leaves the client, the world
and the dispatch count untouched. -/
theorem NewRequest_frame (env : Env) (c : Client) (method path : String)
    (body : Option String) (headers : List (String × String)) (needAuth : Bool)
    (w : List DispatchOutcome)
    (h : (NewRequest env c method path body headers needAuth w).out ≠ Outcome.hang) :
    (NewRequest env c method path body headers needAuth w).client = c ∧
    (NewRequest env c method path body headers needAuth w).world = w ∧
    (NewRequest env c method path body headers needAuth w).dispatches = 0 := by
  by_cases htok : c.openStackToken = ""
  · by_cases hdone : c.timeDeltaDone = true
    · rw [NewRequest_signed_cached env c method path body headers needAuth w htok hdone]
      exact ⟨rfl, rfl, rfl⟩
    · rw [NewRequest_hang env c method path body headers needAuth w htok
        (Bool.not_eq_true _ ▸ hdone)] at h ⊢
      exact absurd rfl h
  · rw [NewRequest_bearer env c method path body headers needAuth w htok]
    exact ⟨rfl, rfl, rfl⟩

/-! ## C10 — the time-fetch deadlock -/

/-- C10: the claim asserts the `NewRequest → TimeDelta → getTime →
GetUnAuth → CallAPI → NewRequest` chain terminates with a result or an
error for a token-less client with an uncached delta.  It does not: the
nested `NewRequest` calls `TimeDelta()` again while `timeDeltaMutex` is
already held by this goroutine, and the second `Lock` of the
non-reentrant mutex blocks forever.  Building any request — and hence
every `CallAPIWithContext` call — hangs, performing no dispatch and
leaving the client unchanged. -/
theorem claim_C10 (env : Env) (c : Client) (method path : String) (body : Option String)
    (headers : List (String × String)) (hasSink needAuth : Bool) (w : List DispatchOutcome)
    (htok : c.openStackToken = "") (hdone : c.timeDeltaDone = false) :
    NewRequest env c method path body headers needAuth w = ⟨.hang, c, w, 0⟩ ∧
    CallAPIWithContext env c method path body headers hasSink needAuth w = ⟨.hang, c, w, 0⟩ := by
  refine ⟨NewRequest_hang env c method path body headers needAuth w htok hdone, ?_⟩
  rw [CallAPIWithContext.eq_def]
  cases w with
  | nil =>
    simp only [NewRequest_hang env c method path body headers needAuth [] htok hdone,
      bindNewRequest]
  | cons o rest =>
    cases o with
    | transportErr m =>
      simp only [NewRequest_hang env c method path body headers needAuth
        (DispatchOutcome.transportErr m :: rest) htok hdone, bindNewRequest]
    | resp r =>
      simp only [NewRequest_hang env c method path body headers needAuth
        (DispatchOutcome.resp r :: rest) htok hdone, bindNewRequest]

/-- C10 witness: a concrete fresh credential-pair client hangs on its
first call. -/
theorem claim_C10_witness :
    NewRequest envW signedClient "GET" "/cluster/abc/nodegroups" none [] true [resp200 "5"] =
      ⟨.hang, signedClient, [resp200 "5"], 0⟩ ∧
    CallAPIWithContext envW signedClient "GET" "/cluster/abc/nodegroups" none [] true true
        [resp200 "5"] =
      ⟨.hang, signedClient, [resp200 "5"], 0⟩ :=
  claim_C10 envW signedClient "GET" "/cluster/abc/nodegroups" none [] true true
    [resp200 "5"] rfl rfl

/-! ## C6 — when the signer runs and what reaches the wire -/

/-- C6 counterexample, at the concrete client `cachedSignedClient`
(no token, delta cached): with `needAuth := false` — unauthenticated
mode — `NewRequest` still runs the signing computation (the produced
request records a signing input), refuting "in unauthenticated mode it
performs no signing"; and the request carries only the `Accept` header —
no signature-derived header, its digest is discarded — and is bit-for-bit
the request of the `needAuth := true` call, refuting "in signed mode the
outgoing request carries the computed signature's derived headers". -/
theorem claim_C6_counterexample :
    NewRequest envW cachedSignedClient "GET" "/x" none [] false [] =
      ⟨.ok { url := "https://tr.vke.example/api/x", body := none,
             headers := [("Accept", "application/json")],
             signingInput := some (signingInput "s" "GET" "https://tr.vke.example/api" "/x" "" 93) },
       cachedSignedClient, [], 0⟩ ∧
    NewRequest envW cachedSignedClient "GET" "/x" none [] true [] =
      NewRequest envW cachedSignedClient "GET" "/x" none [] false [] := by
  constructor
  · rw [NewRequest_signed_cached envW cachedSignedClient "GET" "/x" none [] false [] rfl rfl]
    rfl
  · rw [NewRequest_signed_cached envW cachedSignedClient "GET" "/x" none [] true [] rfl rfl,
      NewRequest_signed_cached envW cachedSignedClient "GET" "/x" none [] false [] rfl rfl]

/-- C6 (amended): the signing computation runs if and only if
`openStackToken` is empty — `needAuth` plays no role.  In bearer-token
mode the request carries the `X-Auth-Token` header and no signing input.
With an empty token the signature input is computed whatever `needAuth`
is, but the outgoing request's headers are `buildHeaders` of body, token
and caller headers alone — no signature-derived header is ever attached
(the sha1 digest is discarded); and when the delta is not cached the
build hangs before producing a request at all. -/
theorem claim_C6_amended (env : Env) (c : Client) (method path : String)
    (body : Option String) (headers : List (String × String)) (needAuth : Bool)
    (w : List DispatchOutcome) :
    (c.openStackToken ≠ "" →
      NewRequest env c method path body headers needAuth w =
        ⟨.ok { url := c.endpoint ++ path, body := body,
               headers := buildHeaders body c.openStackToken headers, signingInput := none },
         c, w, 0⟩ ∧
      (headers = [] →
        ("X-Auth-Token", c.openStackToken) ∈ buildHeaders body c.openStackToken headers)) ∧
    (c.openStackToken = "" → c.timeDeltaDone = true →
      NewRequest env c method path body headers needAuth w =
        ⟨.ok { url := c.endpoint ++ path, body := body,
               headers := buildHeaders body c.openStackToken headers,
               signingInput := some (signingInput c.AppSecret method c.endpoint path
                 (body.getD "") (env.now - c.timeDelta)) },
         c, w, 0⟩) ∧
    (c.openStackToken = "" → c.timeDeltaDone = false →
      NewRequest env c method path body headers needAuth w = ⟨.hang, c, w, 0⟩) := by
  refine ⟨fun h => ⟨NewRequest_bearer env c method path body headers needAuth w h, fun hh => ?_⟩,
    fun h1 h2 => NewRequest_signed_cached env c method path body headers needAuth w h1 h2,
    fun h1 h2 => NewRequest_hang env c method path body headers needAuth w h1 h2⟩
  subst hh
  simp [buildHeaders, h]

/-- C6 witness: the amended statement applied at the bearer client, the
cached credential-pair client, and the fresh credential-pair client. -/
theorem claim_C6_witness :
    NewRequest envW tokenClient "GET" "/x" none [] true [] =
      ⟨.ok { url := tokenClient.endpoint ++ "/x", body := none,
             headers := buildHeaders none tokenClient.openStackToken [], signingInput := none },
       tokenClient, [], 0⟩ ∧
    ("X-Auth-Token", tokenClient.openStackToken) ∈ buildHeaders none tokenClient.openStackToken [] ∧
    NewRequest envW cachedSignedClient "GET" "/x" none [] true [] =
      ⟨.ok { url := cachedSignedClient.endpoint ++ "/x", body := none,
             headers := buildHeaders none cachedSignedClient.openStackToken [],
             signingInput := some (signingInput cachedSignedClient.AppSecret "GET"
               cachedSignedClient.endpoint "/x" "" (envW.now - cachedSignedClient.timeDelta)) },
       cachedSignedClient, [], 0⟩ ∧
    NewRequest envW signedClient "GET" "/x" none [] true [] = ⟨.hang, signedClient, [], 0⟩ :=
  ⟨((claim_C6_amended envW tokenClient "GET" "/x" none [] true []).1 (by decide)).1,
   ((claim_C6_amended envW tokenClient "GET" "/x" none [] true []).1 (by decide)).2 rfl,
   (claim_C6_amended envW cachedSignedClient "GET" "/x" none [] true []).2.1 rfl rfl,
   (claim_C6_amended envW signedClient "GET" "/x" none [] true []).2.2 rfl rfl⟩

/-! ## Unfolding lemmas for `CallAPIWithContext` -/

/-- A dispatched response that decodes successfully ends the call with
the decoded payload, one dispatch consumed. -/
theorem CallAPIWithContext_decode_ok (env : Env) (c : Client) (method path : String)
    (body : Option String) (headers : List (String × String)) (hasSink needAuth : Bool)
    (resp : HttpResponse) (rest : List DispatchOutcome) (req : BuiltRequest) (v : Option Json)
    (hreq : NewRequest env c method path body headers needAuth (.resp resp :: rest) =
      ⟨.ok req, c, .resp resp :: rest, 0⟩)
    (hum : UnmarshalResponse resp hasSink = .ok v) :
    CallAPIWithContext env c method path body headers hasSink needAuth (.resp resp :: rest) =
      ⟨.ok v, c, rest, 1⟩ := by
  rw [CallAPIWithContext.eq_def]
  simp only [hreq, bindNewRequest, afterDispatch, hum]

/-- A decoded error the classifier does not recognize is returned as-is,
one dispatch consumed.  Transport errors take the
`DispatchOutcome.transportErr` arm and are returned immediately. -/
theorem CallAPIWithContext_err_unclassified (env : Env) (c : Client) (method path : String)
    (body : Option String) (headers : List (String × String)) (hasSink needAuth : Bool)
    (resp : HttpResponse) (rest : List DispatchOutcome) (req : BuiltRequest) (e : SdkError)
    (hreq : NewRequest env c method path body headers needAuth (.resp resp :: rest) =
      ⟨.ok req, c, .resp resp :: rest, 0⟩)
    (hum : UnmarshalResponse resp hasSink = .error e)
    (hcls : env.isPossiblyCanadianTenantSyncError e req.url = false) :
    CallAPIWithContext env c method path body headers hasSink needAuth (.resp resp :: rest) =
      ⟨.err e, c, rest, 1⟩ := by
  rw [CallAPIWithContext.eq_def]
  simp only [hreq, bindNewRequest, afterDispatch, hum, hcls]
  simp

/-- The failover branch of `CallAPIWithContext`: a decoded error the
classifier recognizes, with a successfully created fallback client,
reduces the call to `fallbackCombine` of the original error and the
fallback call issued on the remaining world.  `fb2` is the fallback
client after the caller's OpenStack token is carried over. -/
theorem CallAPIWithContext_fallback (env : Env) (c : Client) (method path : String)
    (body : Option String) (headers : List (String × String)) (hasSink needAuth : Bool)
    (resp : HttpResponse) (rest : List DispatchOutcome) (req : BuiltRequest) (e : SdkError)
    (fb fb2 : Client)
    (hreq : NewRequest env c method path body headers needAuth (.resp resp :: rest) =
      ⟨.ok req, c, .resp resp :: rest, 0⟩)
    (hum : UnmarshalResponse resp hasSink = .error e)
    (hcls : env.isPossiblyCanadianTenantSyncError e req.url = true)
    (hfb : NewClient env env.vkeURL "none" "none" "" = .ok fb)
    (hfb2 : { fb with openStackToken := c.openStackToken } = fb2) :
    CallAPIWithContext env c method path body headers hasSink needAuth (.resp resp :: rest) =
      fallbackCombine e c 1
        (CallAPIWithContext env fb2 method path body headers hasSink needAuth rest) := by
  rw [CallAPIWithContext.eq_def]
  simp only [hreq, bindNewRequest, afterDispatch, hum, hcls, hfb, hfb2, Except.map, if_true]

theorem fallbackCombine_dispatches (e : SdkError) (c1 : Client) (b : Nat)
    (r : CallResult (Option Json)) : (fallbackCombine e c1 b r).dispatches = b + r.dispatches := by
  cases h : r.out <;> simp [fallbackCombine, h]

/-! ## C1 — fallback result selection -/

/-- C1: for a call whose decoded error `e` is classified as the
cross-region condition (and whose fallback client is created), if the
single fallback call against the fallback-region client succeeds, its
result is returned — with the original error discarded — and if the
fallback call fails, the error returned to the caller is the original
`e`, not the fallback's.  Dispatch counts add up as original (1) plus
the fallback call's. -/
theorem claim_C1 (env : Env) (c : Client) (method path : String)
    (body : Option String) (headers : List (String × String)) (hasSink needAuth : Bool)
    (resp : HttpResponse) (rest : List DispatchOutcome) (req : BuiltRequest) (e : SdkError)
    (fb fb2 : Client)
    (hreq : NewRequest env c method path body headers needAuth (.resp resp :: rest) =
      ⟨.ok req, c, .resp resp :: rest, 0⟩)
    (hum : UnmarshalResponse resp hasSink = .error e)
    (hcls : env.isPossiblyCanadianTenantSyncError e req.url = true)
    (hfb : NewClient env env.vkeURL "none" "none" "" = .ok fb)
    (hfb2 : { fb with openStackToken := c.openStackToken } = fb2) :
    (∀ v c2 w2 n2,
      CallAPIWithContext env fb2 method path body headers hasSink needAuth rest =
        ⟨.ok v, c2, w2, n2⟩ →
      CallAPIWithContext env c method path body headers hasSink needAuth (.resp resp :: rest) =
        ⟨.ok v, c, w2, 1 + n2⟩) ∧
    (∀ e2 c2 w2 n2,
      CallAPIWithContext env fb2 method path body headers hasSink needAuth rest =
        ⟨.err e2, c2, w2, n2⟩ →
      CallAPIWithContext env c method path body headers hasSink needAuth (.resp resp :: rest) =
        ⟨.err e, c, w2, 1 + n2⟩) := by
  have hfall := CallAPIWithContext_fallback env c method path body headers hasSink needAuth
    resp rest req e fb fb2 hreq hum hcls hfb hfb2
  constructor
  · intro v c2 w2 n2 hinner
    rw [hfall, hinner]
    simp [fallbackCombine]
  · intro e2 c2 w2 n2 hinner
    rw [hfall, hinner]
    simp [fallbackCombine]

/-- C1 witness: a concrete classified 500 followed by a successful
fallback dispatch; the caller receives the fallback's payload and the
original error is discarded. -/
theorem claim_C1_witness :
    CallAPIWithContext envW tokenClient "GET" "/p" none [] true true
        [resp500, resp200 "42"] =
      ⟨.ok (some (.num 42)), tokenClient, [], 2⟩ := by
  have h := (claim_C1 envW tokenClient "GET" "/p" none [] true true
    { statusCode := 500, body := "", queryID := "" } [resp200 "42"]
    { url := "https://tr.vke.example/api/p", body := none,
      headers := [("Accept", "application/json"), ("X-Auth-Token", "tok")],
      signingInput := none }
    (.api { Code := 500, Message := "", QueryID := "" })
    { AppKey := "none", AppSecret := "none", endpoint := "https://ca.vke.example/api",
      timeDeltaDone := false, timeDelta := 0, openStackToken := "" }
    { AppKey := "none", AppSecret := "none", endpoint := "https://ca.vke.example/api",
      timeDeltaDone := false, timeDelta := 0, openStackToken := "tok" }
    (by rw [NewRequest_bearer envW tokenClient "GET" "/p" none [] true
        [resp500, resp200 "42"] (by decide)]; rfl)
    rfl rfl rfl rfl).1 (some (.num 42))
    { AppKey := "none", AppSecret := "none", endpoint := "https://ca.vke.example/api",
      timeDeltaDone := false, timeDelta := 0, openStackToken := "tok" } [] 1
    (CallAPIWithContext_decode_ok envW
      { AppKey := "none", AppSecret := "none", endpoint := "https://ca.vke.example/api",
        timeDeltaDone := false, timeDelta := 0, openStackToken := "tok" }
      "GET" "/p" none [] true true { statusCode := 200, body := "42", queryID := "" } []
      { url := "https://ca.vke.example/api/p", body := none,
        headers := [("Accept", "application/json"), ("X-Auth-Token", "tok")],
        signingInput := none }
      (some (.num 42))
      (by rw [NewRequest_bearer envW
          { AppKey := "none", AppSecret := "none", endpoint := "https://ca.vke.example/api",
            timeDeltaDone := false, timeDelta := 0, openStackToken := "tok" }
          "GET" "/p" none [] true [resp200 "42"] (by decide)]; rfl)
      rfl)
  exact h

/-! ## C2 — failover boundedness -/

/-- C2 counterexample: the fallback call goes through the full
`CallAPIWithContext`, so when its own error also matches the classifier
it triggers a further failover.  Concretely, with two consecutive
classified 500s and a third dispatch answering 200/`42`, the
caller-initiated call performs **three** dispatches (the claim bounds
them by two) and returns the third dispatch's payload — the second
fallback materially happened. -/
theorem claim_C2_counterexample :
    CallAPIWithContext envW tokenClient "GET" "/p" none [] true true
        [resp500, resp500, resp200 "42"] =
      ⟨.ok (some (.num 42)), tokenClient, [], 3⟩ := by
  have h3 := CallAPIWithContext_decode_ok envW
    { AppKey := "none", AppSecret := "none", endpoint := "https://ca.vke.example/api",
      timeDeltaDone := false, timeDelta := 0, openStackToken := "tok" }
    "GET" "/p" none [] true true { statusCode := 200, body := "42", queryID := "" } []
    { url := "https://ca.vke.example/api/p", body := none,
      headers := [("Accept", "application/json"), ("X-Auth-Token", "tok")],
      signingInput := none }
    (some (.num 42))
    (by rw [NewRequest_bearer envW
        { AppKey := "none", AppSecret := "none", endpoint := "https://ca.vke.example/api",
          timeDeltaDone := false, timeDelta := 0, openStackToken := "tok" }
        "GET" "/p" none [] true [DispatchOutcome.resp { statusCode := 200, body := "42", queryID := "" }]
        (by decide)]; rfl)
    rfl
  have h2 := CallAPIWithContext_fallback envW
    { AppKey := "none", AppSecret := "none", endpoint := "https://ca.vke.example/api",
      timeDeltaDone := false, timeDelta := 0, openStackToken := "tok" }
    "GET" "/p" none [] true true { statusCode := 500, body := "", queryID := "" }
    [DispatchOutcome.resp { statusCode := 200, body := "42", queryID := "" }]
    { url := "https://ca.vke.example/api/p", body := none,
      headers := [("Accept", "application/json"), ("X-Auth-Token", "tok")],
      signingInput := none }
    (.api { Code := 500, Message := "", QueryID := "" })
    { AppKey := "none", AppSecret := "none", endpoint := "https://ca.vke.example/api",
      timeDeltaDone := false, timeDelta := 0, openStackToken := "" }
    { AppKey := "none", AppSecret := "none", endpoint := "https://ca.vke.example/api",
      timeDeltaDone := false, timeDelta := 0, openStackToken := "tok" }
    (by rw [NewRequest_bearer envW
        { AppKey := "none", AppSecret := "none", endpoint := "https://ca.vke.example/api",
          timeDeltaDone := false, timeDelta := 0, openStackToken := "tok" }
        "GET" "/p" none [] true
        [DispatchOutcome.resp { statusCode := 500, body := "", queryID := "" },
         DispatchOutcome.resp { statusCode := 200, body := "42", queryID := "" }]
        (by decide)]; rfl)
    rfl rfl rfl rfl
  have h1 := CallAPIWithContext_fallback envW tokenClient
    "GET" "/p" none [] true true { statusCode := 500, body := "", queryID := "" }
    [DispatchOutcome.resp { statusCode := 500, body := "", queryID := "" },
     DispatchOutcome.resp { statusCode := 200, body := "42", queryID := "" }]
    { url := "https://tr.vke.example/api/p", body := none,
      headers := [("Accept", "application/json"), ("X-Auth-Token", "tok")],
      signingInput := none }
    (.api { Code := 500, Message := "", QueryID := "" })
    { AppKey := "none", AppSecret := "none", endpoint := "https://ca.vke.example/api",
      timeDeltaDone := false, timeDelta := 0, openStackToken := "" }
    { AppKey := "none", AppSecret := "none", endpoint := "https://ca.vke.example/api",
      timeDeltaDone := false, timeDelta := 0, openStackToken := "tok" }
    (by rw [NewRequest_bearer envW tokenClient "GET" "/p" none [] true
        [DispatchOutcome.resp { statusCode := 500, body := "", queryID := "" },
         DispatchOutcome.resp { statusCode := 500, body := "", queryID := "" },
         DispatchOutcome.resp { statusCode := 200, body := "42", queryID := "" }]
        (by decide)]; rfl)
    rfl rfl rfl rfl
  show CallAPIWithContext envW tokenClient "GET" "/p" none [] true true
      (DispatchOutcome.resp { statusCode := 500, body := "", queryID := "" } ::
        [DispatchOutcome.resp { statusCode := 500, body := "", queryID := "" },
         DispatchOutcome.resp { statusCode := 200, body := "42", queryID := "" }]) =
    ⟨.ok (some (.num 42)), tokenClient, [], 3⟩
  rw [h1, h2, h3]
  simp [fallbackCombine]

/-- C2 (amended): given a classified error, the router issues exactly one
immediate fallback call — but that call runs through the full
`CallAPIWithContext`, so it triggers its own failover whenever its own
error matches the classifier.  The caller-initiated call's dispatch
count is one plus the fallback call's dispatch count, with no further
bound; it is at most two only when the fallback call itself does not
fail over. -/
theorem claim_C2_amended (env : Env) (c : Client) (method path : String)
    (body : Option String) (headers : List (String × String)) (hasSink needAuth : Bool)
    (resp : HttpResponse) (rest : List DispatchOutcome) (req : BuiltRequest) (e : SdkError)
    (fb fb2 : Client)
    (hreq : NewRequest env c method path body headers needAuth (.resp resp :: rest) =
      ⟨.ok req, c, .resp resp :: rest, 0⟩)
    (hum : UnmarshalResponse resp hasSink = .error e)
    (hcls : env.isPossiblyCanadianTenantSyncError e req.url = true)
    (hfb : NewClient env env.vkeURL "none" "none" "" = .ok fb)
    (hfb2 : { fb with openStackToken := c.openStackToken } = fb2) :
    CallAPIWithContext env c method path body headers hasSink needAuth (.resp resp :: rest) =
      fallbackCombine e c 1
        (CallAPIWithContext env fb2 method path body headers hasSink needAuth rest) ∧
    (CallAPIWithContext env c method path body headers hasSink needAuth
        (.resp resp :: rest)).dispatches =
      1 + (CallAPIWithContext env fb2 method path body headers hasSink needAuth
        rest).dispatches := by
  have hfall := CallAPIWithContext_fallback env c method path body headers hasSink needAuth
    resp rest req e fb fb2 hreq hum hcls hfb hfb2
  exact ⟨hfall, by rw [hfall, fallbackCombine_dispatches]⟩

/-- C2 witness: the amended statement applied at a concrete classified
500 with one successful fallback dispatch. -/
theorem claim_C2_witness :
    CallAPIWithContext envW tokenClient "GET" "/p" none [] true true [resp500, resp200 "42"] =
      fallbackCombine (.api { Code := 500, Message := "", QueryID := "" }) tokenClient 1
        (CallAPIWithContext envW
          { AppKey := "none", AppSecret := "none", endpoint := "https://ca.vke.example/api",
            timeDeltaDone := false, timeDelta := 0, openStackToken := "tok" }
          "GET" "/p" none [] true true [resp200 "42"]) ∧
    (CallAPIWithContext envW tokenClient "GET" "/p" none [] true true
        [resp500, resp200 "42"]).dispatches =
      1 + (CallAPIWithContext envW
        { AppKey := "none", AppSecret := "none", endpoint := "https://ca.vke.example/api",
          timeDeltaDone := false, timeDelta := 0, openStackToken := "tok" }
        "GET" "/p" none [] true true [resp200 "42"]).dispatches :=
  claim_C2_amended envW tokenClient "GET" "/p" none [] true true
    { statusCode := 500, body := "", queryID := "" } [resp200 "42"]
    { url := "https://tr.vke.example/api/p", body := none,
      headers := [("Accept", "application/json"), ("X-Auth-Token", "tok")],
      signingInput := none }
    (.api { Code := 500, Message := "", QueryID := "" })
    { AppKey := "none", AppSecret := "none", endpoint := "https://ca.vke.example/api",
      timeDeltaDone := false, timeDelta := 0, openStackToken := "" }
    { AppKey := "none", AppSecret := "none", endpoint := "https://ca.vke.example/api",
      timeDeltaDone := false, timeDelta := 0, openStackToken := "tok" }
    (by rw [NewRequest_bearer envW tokenClient "GET" "/p" none [] true
        [resp500, resp200 "42"] (by decide)]; rfl)
    rfl rfl rfl rfl

/-! ## Clock synchronizer lemmas -/

theorem decodeGetTime_client (r : CallResult (Option Json)) :
    (decodeGetTime r).client = r.client := by
  simp only [decodeGetTime]
  repeat' split
  all_goals rfl

theorem decodeGetTime_hang (r : CallResult (Option Json)) (h : r.out = Outcome.hang) :
    (decodeGetTime r).out = Outcome.hang := by
  simp only [decodeGetTime, h]

theorem CallAPIWithContextLocked_client_or (env : Env) (c : Client) (method path : String)
    (body : Option String) (headers : List (String × String)) (hasSink needAuth : Bool)
    (w : List DispatchOutcome) :
    (CallAPIWithContextLocked env c method path body headers hasSink needAuth w).client = c ∨
    (CallAPIWithContextLocked env c method path body headers hasSink needAuth w).out =
      Outcome.hang := by
  rw [CallAPIWithContextLocked.eq_def]
  simp only [afterDispatch, fallbackCombine]
  repeat' split
  all_goals first
  | (left; rfl)
  | (right; rfl)

theorem getTime_client_or (env : Env) (c : Client) (w : List DispatchOutcome) :
    (getTime env c w).client = c ∨ (getTime env c w).out = Outcome.hang := by
  rw [getTime.eq_def]
  rcases CallAPIWithContextLocked_client_or env c "GET" "/auth/time" none [] true false w with
    h | h
  · left
    rw [decodeGetTime_client]
    exact h
  · right
    exact decodeGetTime_hang _ h

theorem NewRequestLocked_bearer (env : Env) (c : Client) (method path : String)
    (body : Option String) (headers : List (String × String)) (needAuth : Bool)
    (h : c.openStackToken ≠ "") :
    NewRequestLocked env c method path body headers needAuth =
      .ok { url := c.endpoint ++ path, body := body,
            headers := buildHeaders body c.openStackToken headers, signingInput := none } := by
  simp [NewRequestLocked, h]

/-! ## C3 — fetch failure caches nothing, success caches forever -/

/-- C3: if the time fetch inside `getTimeDelta` fails, nothing is cached
— the client comes back unchanged (`timeDeltaDone` still false, the
stored delta untouched), the fetch's error is returned, and a subsequent
call on that unchanged client runs the very same fetch path again.
After a successful fetch the offset `now - serverTime` is cached, and
every call on a client with `timeDeltaDone` set returns the cached value
without consuming any world outcome or dispatching; nothing in the
client ever resets the flag, so the cache is never invalidated. -/
theorem claim_C3 (env : Env) (c : Client) (w : List DispatchOutcome) :
    (c.timeDeltaDone = true →
      getTimeDelta env c w = ⟨.ok c.timeDelta, c, w, 0⟩) ∧
    (∀ e c2 w2 n2, c.timeDeltaDone = false →
      getTime env c w = ⟨.err e, c2, w2, n2⟩ →
      c2 = c ∧ getTimeDelta env c w = ⟨.err e, c, w2, n2⟩) ∧
    (∀ t c2 w2 n2, c.timeDeltaDone = false →
      getTime env c w = ⟨.ok t, c2, w2, n2⟩ →
      getTimeDelta env c w =
        ⟨.ok (env.now - t), { c2 with timeDeltaDone := true, timeDelta := env.now - t },
         w2, n2⟩) := by
  refine ⟨fun h => getTimeDelta_cached env c w h, ?_, ?_⟩
  · intro e c2 w2 n2 hdone hfetch
    have hc2 : c2 = c := by
      rcases getTime_client_or env c w with h | h
      · rw [hfetch] at h
        exact h
      · rw [hfetch] at h
        simp at h
    subst hc2
    refine ⟨rfl, ?_⟩
    rw [getTimeDelta.eq_def]
    simp [hdone, hfetch, finishGetTimeDelta]
  · intro t c2 w2 n2 hdone hfetch
    rw [getTimeDelta.eq_def]
    simp [hdone, hfetch, finishGetTimeDelta]

/-- Evaluation of a failed (transport-error) time fetch on a bearer
client. -/
theorem getTimeDelta_fetch_transportErr (env : Env) (c : Client) (m : String)
    (rest : List DispatchOutcome) (htok : c.openStackToken ≠ "") (hdone : c.timeDeltaDone = false) :
    getTimeDelta env c (.transportErr m :: rest) = ⟨.err (.transport m), c, rest, 1⟩ := by
  rw [getTimeDelta.eq_def]
  rw [getTime.eq_def, CallAPIWithContextLocked.eq_def,
    NewRequestLocked_bearer env c "GET" "/auth/time" none [] false htok]
  simp [hdone, decodeGetTime, finishGetTimeDelta]

/-- A 200 response whose body parses as a JSON integer unmarshals to
that integer payload. -/
theorem UnmarshalResponse_num (r : HttpResponse) (t : Int) (hst : r.statusCode = 200)
    (hp : parseJson r.body = some (.num t)) :
    UnmarshalResponse r true = .ok (some (.num t)) := by
  have hb : r.body ≠ "" := by
    intro hb
    rw [hb] at hp
    have h2 : (none : Option Json) = some (Json.num t) := hp
    exact Option.noConfusion h2
  simp [UnmarshalResponse, hst, hb, hp]

/-- Evaluation of a successful time fetch on a bearer client: the offset
is cached and exactly one dispatch happens. -/
theorem getTimeDelta_fetch_ok (env : Env) (c : Client) (r : HttpResponse)
    (rest : List DispatchOutcome) (t : Int) (htok : c.openStackToken ≠ "")
    (hdone : c.timeDeltaDone = false) (hst : r.statusCode = 200)
    (hp : parseJson r.body = some (.num t)) :
    getTimeDelta env c (.resp r :: rest) =
      ⟨.ok (env.now - t), { c with timeDeltaDone := true, timeDelta := env.now - t },
       rest, 1⟩ := by
  rw [getTimeDelta.eq_def]
  rw [getTime.eq_def, CallAPIWithContextLocked.eq_def,
    NewRequestLocked_bearer env c "GET" "/auth/time" none [] false htok]
  simp [hdone, afterDispatch, UnmarshalResponse_num r t hst hp, decodeGetTime,
    finishGetTimeDelta]

/-- C3 witness: the three clauses of C3 applied at concrete clients and
worlds — a cached client answers from the cache without dispatching, a
failed fetch leaves the client unchanged and surfaces the error, a
successful fetch caches `now - serverTime`. -/
theorem claim_C3_witness :
    getTimeDelta envW cachedSignedClient [] = ⟨.ok 7, cachedSignedClient, [], 0⟩ ∧
    getTimeDelta envW tokenClient [.transportErr "boom"] =
      ⟨.err (.transport "boom"), tokenClient, [], 1⟩ ∧
    getTimeDelta envW tokenClient [resp200 "5"] =
      ⟨.ok 95, { tokenClient with timeDeltaDone := true, timeDelta := 95 }, [], 1⟩ := by
  refine ⟨(claim_C3 envW cachedSignedClient []).1 rfl, ?_, ?_⟩
  · have hfetch : getTime envW tokenClient [.transportErr "boom"] =
        ⟨.err (.transport "boom"), tokenClient, [], 1⟩ := by
      rw [getTime.eq_def, CallAPIWithContextLocked.eq_def,
        NewRequestLocked_bearer envW tokenClient "GET" "/auth/time" none [] false (by decide)]
      simp [decodeGetTime]
    exact ((claim_C3 envW tokenClient [.transportErr "boom"]).2.1
      (.transport "boom") tokenClient [] 1 rfl hfetch).2
  · have hfetch : getTime envW tokenClient [resp200 "5"] = ⟨.ok 5, tokenClient, [], 1⟩ := by
      rw [getTime.eq_def, CallAPIWithContextLocked.eq_def,
        NewRequestLocked_bearer envW tokenClient "GET" "/auth/time" none [] false (by decide)]
      simp [afterDispatch, UnmarshalResponse_num { statusCode := 200, body := "5", queryID := "" }
        5 rfl rfl, decodeGetTime]
    exact (claim_C3 envW tokenClient [resp200 "5"]).2.2 5 tokenClient [] 1 rfl hfetch

/-! ## C4 — concurrent first-time callers -/

/-- Callers that find the delta already cached read it without fetching:
no world outcome is consumed and no dispatch happens, for any number of
callers. -/
theorem race_cached (env : Env) (n : Nat) (c : Client) (w : List DispatchOutcome)
    (h : c.timeDeltaDone = true) :
    raceGetTimeDelta env n c w = (List.replicate n (.ok c.timeDelta), c, w, 0) := by
  induction n with
  | zero => simp [raceGetTimeDelta]
  | succ n ih => simp [raceGetTimeDelta, getTimeDelta_cached env c w h, ih, List.replicate_succ]

/-- C4 counterexample: two serialized first-time callers on a bearer
client whose first fetch fails with a transport error.  The first caller
gets the error, but the second caller — the racer that was waiting on
the mutex — does **not** receive that error: it performs its own second
fetch, which succeeds and caches offset 95.  Two fetch dispatches occur,
not one, and not all racers observe the same outcome. -/
theorem claim_C4_counterexample :
    raceGetTimeDelta envW 2 tokenClient [.transportErr "boom", resp200 "5"] =
      ([.err (.transport "boom"), .ok 95],
       { tokenClient with timeDeltaDone := true, timeDelta := 95 }, [], 2) := by
  have h1 := getTimeDelta_fetch_transportErr envW tokenClient "boom" [resp200 "5"]
    (by decide) rfl
  have h2 := getTimeDelta_fetch_ok envW tokenClient
    { statusCode := 200, body := "5", queryID := "" } [] 5 (by decide) rfl rfl rfl
  simp [raceGetTimeDelta, h1, h2]
  decide

/-- C4 (amended): for `n + 1` serialized first-time callers on one
client, when the first fetch succeeds, exactly one fetch dispatch occurs
and every caller observes the same offset `now - serverTime`; when a
fetch fails, only the caller that performed it receives the error
(`claim_C4_counterexample`), and the next waiter retries the fetch
itself, because failure caches nothing. -/
theorem claim_C4_amended (env : Env) (n : Nat) (c : Client) (r : HttpResponse)
    (rest : List DispatchOutcome) (t : Int) (htok : c.openStackToken ≠ "")
    (hdone : c.timeDeltaDone = false) (hst : r.statusCode = 200)
    (hp : parseJson r.body = some (.num t)) :
    raceGetTimeDelta env (n + 1) c (.resp r :: rest) =
      (List.replicate (n + 1) (.ok (env.now - t)),
       { c with timeDeltaDone := true, timeDelta := env.now - t }, rest, 1) := by
  have h1 := getTimeDelta_fetch_ok env c r rest t htok hdone hst hp
  simp [raceGetTimeDelta, h1,
    race_cached env n { c with timeDeltaDone := true, timeDelta := env.now - t } rest rfl,
    List.replicate_succ]

/-- C4 witness: the amended statement at three concrete callers and a
successful first fetch — one dispatch, all three observe offset 95. -/
theorem claim_C4_witness :
    raceGetTimeDelta envW 3 tokenClient [resp200 "5"] =
      (List.replicate 3 (.ok 95),
       { tokenClient with timeDeltaDone := true, timeDelta := 95 }, [], 1) :=
  claim_C4_amended envW 2 tokenClient { statusCode := 200, body := "5", queryID := "" } [] 5
    (by decide) rfl rfl rfl

/-! ## C7 — response decoding -/

/-- C7 counterexample: on a failing status whose JSON error body carries
its own `code`, `json.Unmarshal` overwrites the preset status code — the
returned `APIError`'s `Code` is the body's 500, not the response's 404,
refuting "an APIError whose Code is the status code". -/
theorem claim_C7_counterexample :
    UnmarshalResponse
        { statusCode := 404, body := "\x7b\"code\":500,\"message\":\"m\"\x7d",
          queryID := "q7" } true =
      .error (.api { Code := 500, Message := "m", QueryID := "q7" }) ∧
    (500 : Int) ≠ 404 :=
  ⟨rfl, by decide⟩

/-- C7 (amended): a response with status outside [200, 300) yields an
`APIError` whose `QueryID` is the `X-VKE-QueryID` header and whose
`Code`/`Message` come from the JSON error body when it parses as an
error record — the body's `code`, when present, overrides the status
code — and otherwise are the status code and the raw body text.  A
successful status with an empty body or no result sink returns no error
without parsing; a successful status with a body and a sink returns the
parsed payload, and a parse failure yields a decode error, a different
`SdkError` constructor from `APIError`. -/
theorem claim_C7_amended (r : HttpResponse) (hasSink : Bool) :
    (200 ≤ r.statusCode → r.statusCode < 300 → (r.body = "" ∨ hasSink = false) →
      UnmarshalResponse r hasSink = .ok none) ∧
    (∀ v, 200 ≤ r.statusCode → r.statusCode < 300 → r.body ≠ "" → hasSink = true →
      parseJson r.body = some v → UnmarshalResponse r hasSink = .ok (some v)) ∧
    (200 ≤ r.statusCode → r.statusCode < 300 → r.body ≠ "" → hasSink = true →
      parseJson r.body = none →
      UnmarshalResponse r hasSink = .error (.decode r.body) ∧
      ∀ a : APIError, SdkError.decode r.body ≠ .api a) ∧
    (¬(200 ≤ r.statusCode ∧ r.statusCode < 300) →
      (unmarshalAPIErrorBody r.body
          { Code := (r.statusCode : Int), Message := "", QueryID := "" } = none →
        UnmarshalResponse r hasSink =
          .error (.api { Code := (r.statusCode : Int), Message := r.body,
                         QueryID := r.queryID })) ∧
      (∀ a, unmarshalAPIErrorBody r.body
          { Code := (r.statusCode : Int), Message := "", QueryID := "" } = some a →
        UnmarshalResponse r hasSink =
          .error (.api { Code := a.Code, Message := a.Message, QueryID := r.queryID }))) := by
  refine ⟨?_, ?_, ?_, ?_⟩
  · intro h1 h2 h3
    have hrange : ¬(r.statusCode < 200 ∨ 300 ≤ r.statusCode) := by omega
    rcases h3 with h3 | h3 <;> simp [UnmarshalResponse, hrange, h3]
  · intro v h1 h2 h3 h4 h5
    have hrange : ¬(r.statusCode < 200 ∨ 300 ≤ r.statusCode) := by omega
    simp [UnmarshalResponse, hrange, h3, h4, h5]
  · intro h1 h2 h3 h4 h5
    have hrange : ¬(r.statusCode < 200 ∨ 300 ≤ r.statusCode) := by omega
    exact ⟨by simp [UnmarshalResponse, hrange, h3, h4, h5], fun a => by simp⟩
  · intro hrange0
    have hrange : r.statusCode < 200 ∨ 300 ≤ r.statusCode := by omega
    constructor
    · intro hnone
      simp [UnmarshalResponse, hrange, hnone]
    · intro a hsome
      simp [UnmarshalResponse, hrange, hsome]

/-- C7 witness: the amended statement applied at the spec's own decoding
examples — status 404 with `{"code":404,"message":"not found"}` gives
Code 404 and Message "not found"; status 500 with the non-JSON body
`boom` gives the raw body as the message; an empty success body and a
missing sink decode to nothing; a malformed success body is a decode
error. -/
theorem claim_C7_witness :
    UnmarshalResponse
        { statusCode := 404, body := "\x7b\"code\":404,\"message\":\"not found\"\x7d",
          queryID := "q1" } true =
      .error (.api { Code := 404, Message := "not found", QueryID := "q1" }) ∧
    UnmarshalResponse { statusCode := 500, body := "boom", queryID := "q2" } true =
      .error (.api { Code := 500, Message := "boom", QueryID := "q2" }) ∧
    UnmarshalResponse { statusCode := 200, body := "", queryID := "" } true = .ok none ∧
    UnmarshalResponse { statusCode := 204, body := "x", queryID := "" } false = .ok none ∧
    UnmarshalResponse { statusCode := 200, body := "nope", queryID := "" } true =
      .error (.decode "nope") :=
  ⟨(claim_C7_amended
      { statusCode := 404, body := "\x7b\"code\":404,\"message\":\"not found\"\x7d",
        queryID := "q1" }
      true).2.2.2 (by decide) |>.2 { Code := 404, Message := "not found", QueryID := "" } rfl,
   (claim_C7_amended { statusCode := 500, body := "boom", queryID := "q2" }
      true).2.2.2 (by decide) |>.1 rfl,
   (claim_C7_amended { statusCode := 200, body := "", queryID := "" } true).1
      (by decide) (by decide) (Or.inl rfl),
   (claim_C7_amended { statusCode := 204, body := "x", queryID := "" } false).1
      (by decide) (by decide) (Or.inr rfl),
   ((claim_C7_amended { statusCode := 200, body := "nope", queryID := "" } true).2.2.1
      (by decide) (by decide) (by decide) rfl rfl).1⟩

/-! ## C8 — update-pool serialization -/

/-- C8: an `UpdateNodePoolOpts` with only `MaxNodes` set serializes to a
body containing solely the `maxNodes` field — the other optional fields
are absent from the output, not null or zero, because every field of the
struct carries `omitempty`. -/
theorem claim_C8 (n : Nat) :
    serializeUpdateNodePoolOpts
        { MinNodes := none, MaxNodes := some n, Autoscale := none, NodesToRemove := [] } =
      String.singleton lbrace ++ ("\"maxNodes\":" ++ Nat.repr n) ++ String.singleton rbrace := by
  simp [serializeUpdateNodePoolOpts, joinComma]

/-- C8 witness: the serialization claim evaluated at `maxNodes = 3`. -/
theorem claim_C8_witness :
    serializeUpdateNodePoolOpts
        { MinNodes := none, MaxNodes := some 3, Autoscale := none, NodesToRemove := [] } =
      "\x7b\"maxNodes\":3\x7d" :=
  claim_C8 3

/-! ## C9 — error propagation in the resource client -/

/-- C9: `DeleteNode` evaluates its underlying `CallAPIWithContext` and
discards the outcome, returning success unconditionally — for every
environment, client and world, whenever the underlying call returns at
all (does not hang), `DeleteNode` reports `ok`, error or not.  Every
other resource-client operation is exactly its underlying
`CallAPIWithContext` call on the corresponding method and path — errors
are propagated to the caller unmodified. -/
theorem claim_C9 :
    (∀ env c clusterID NodeGroupID NodeName w,
      (CallAPIWithContext env c "DELETE"
          ("/cluster/" ++ clusterID ++ "/nodegroups/" ++ NodeGroupID ++ "/nodes/" ++ NodeName)
          none [] false true w).out ≠ Outcome.hang →
      (DeleteNode env c clusterID NodeGroupID NodeName w).out = .ok ()) ∧
    (∀ env c clusterID w, ListNodePools env c clusterID w =
      CallAPIWithContext env c "GET" ("/cluster/" ++ clusterID ++ "/nodegroups")
        none [] true true w) ∧
    (∀ env c clusterID poolID w, GetNodePool env c clusterID poolID w =
      CallAPIWithContext env c "GET" ("/cluster/" ++ clusterID ++ "/nodepool/" ++ poolID)
        none [] true true w) ∧
    (∀ env c clusterID poolID w, ListNodePoolNodes env c clusterID poolID w =
      CallAPIWithContext env c "GET"
        ("/cluster/" ++ clusterID ++ "/nodegroups/" ++ poolID ++ "/nodes") none [] true true w) ∧
    (∀ env c projectID clusterID opts w, CreateNodePool env c projectID clusterID opts w =
      CallAPIWithContext env c "POST"
        ("/cloud/project/" ++ projectID ++ "/kube/" ++ clusterID ++ "/nodepool")
        opts [] true true w) ∧
    (∀ env c clusterID poolID opts w, UpdateNodePool env c clusterID poolID opts w =
      CallAPIWithContext env c "PUT" ("/cluster/" ++ clusterID ++ "/nodegroups/" ++ poolID)
        (some (serializeUpdateNodePoolOpts opts)) [] true true w) ∧
    (∀ env c projectID clusterID poolID w, DeleteNodePool env c projectID clusterID poolID w =
      CallAPIWithContext env c "DELETE"
        ("/cloud/project/" ++ projectID ++ "/kube/" ++ clusterID ++ "/nodepool/" ++ poolID)
        none [] true true w) ∧
    (∀ env c clusterID NodeGroupID w, AddNode env c clusterID NodeGroupID w =
      CallAPIWithContext env c "PUT"
        ("/cluster/" ++ clusterID ++ "/nodegroups/" ++ NodeGroupID ++ "/nodes/add")
        none [] true true w) := by
  refine ⟨?_, fun _ _ _ _ => rfl, fun _ _ _ _ _ => rfl, fun _ _ _ _ _ => rfl,
    fun _ _ _ _ _ _ => rfl, fun _ _ _ _ _ _ => rfl, fun _ _ _ _ _ _ => rfl,
    fun _ _ _ _ _ => rfl⟩
  intro env c clusterID NodeGroupID NodeName w h
  simp only [DeleteNode]

/-- C9 witness: a concrete `DeleteNode` whose underlying call returns
(status 200, empty body) reports success. -/
theorem claim_C9_witness :
    (CallAPIWithContext envW tokenClient "DELETE"
        ("/cluster/" ++ "c1" ++ "/nodegroups/" ++ "g1" ++ "/nodes/" ++ "n1")
        none [] false true [resp200 ""]).out ≠ Outcome.hang ∧
    (DeleteNode envW tokenClient "c1" "g1" "n1" [resp200 ""]).out = .ok () := by
  have hcall : CallAPIWithContext envW tokenClient "DELETE"
      ("/cluster/" ++ "c1" ++ "/nodegroups/" ++ "g1" ++ "/nodes/" ++ "n1")
      none [] false true [resp200 ""] = ⟨.ok none, tokenClient, [], 1⟩ :=
    CallAPIWithContext_decode_ok envW tokenClient "DELETE"
      ("/cluster/" ++ "c1" ++ "/nodegroups/" ++ "g1" ++ "/nodes/" ++ "n1")
      none [] false true { statusCode := 200, body := "", queryID := "" } []
      { url := "https://tr.vke.example/api/cluster/c1/nodegroups/g1/nodes/n1", body := none,
        headers := [("Accept", "application/json"), ("X-Auth-Token", "tok")],
        signingInput := none }
      none
      (by rw [NewRequest_bearer envW tokenClient "DELETE"
          ("/cluster/" ++ "c1" ++ "/nodegroups/" ++ "g1" ++ "/nodes/" ++ "n1")
          none [] true [resp200 ""] (by decide)]; rfl)
      rfl
  constructor
  · rw [hcall]
    simp
  · exact claim_C9.1 envW tokenClient "c1" "g1" "n1" [resp200 ""] (by rw [hcall]; simp)

end VKE
